import Mathlib

/-!
Verification development for the RoboMaster EP object-detection and sorting
system.  The Python sources are shallowly embedded: pure data and control
flow are translated into Lean definitions; the fallible robot sub-operations
(chassis movement, gripper actuation), whose outcomes depend on external
hardware, are abstracted by boolean oracles supplied in an environment
record.  Machine floats of the configuration appear only in interval
comparisons on exactly representable values, so they are modelled by
rationals.
-/

namespace RoboSort

/-! ### Data model: src/src/vision/detection.py -/

/-- DetectedObject from src/src/vision/detection.py: a recognized object with
class name, confidence score and bounding box (x1, y1, x2, y2). -/
structure DetectedObject where
  class_name : String
  confidence : ℚ
  x1 : ℤ
  y1 : ℤ
  x2 : ℤ
  y2 : ℤ
deriving Repr, DecidableEq

/-! ### Zones.  Modelled from the spec: the file src/sorting/zones.py is
imported by src/src/sorting/logic.py and configured by main.py but is not
present under src/; Zone and ZoneManager follow spec sections 3 and 4.3. -/

/-- Modelled from the spec: a Zone has a name, a world position, a positive
capacity and an occupancy count (spec section 3). -/
structure Zone where
  name : String
  position : ℚ × ℚ
  capacity : ℕ
  occupied_count : ℕ
deriving Repr, DecidableEq

/-- Modelled from the spec: add_object increments occupied_count and fails
with a capacity error, leaving the count unchanged, if the zone is already
at capacity (spec section 4.3). -/
def Zone.add_object (z : Zone) : Bool × Zone :=
  if z.occupied_count < z.capacity then
    (true, { z with occupied_count := z.occupied_count + 1 })
  else
    (false, z)

/-- Modelled from the spec: the Zone Manager owns the mapping from zone name
to Zone, keys unique (spec section 3). -/
structure ZoneManager where
  zones : List (String × Zone)
deriving Repr, DecidableEq

/-- Modelled from the spec: get_zone resolves a zone by name, absent when the
name is unknown (spec section 4.3). -/
def ZoneManager.get_zone (zm : ZoneManager) (name : String) : Option Zone :=
  (zm.zones.find? (fun p => p.1 = name)).map Prod.snd

/-- Modelled from the spec: create_zone fails if the name already exists
(spec section 4.3). -/
def ZoneManager.create_zone (zm : ZoneManager) (name : String) (position : ℚ × ℚ)
    (capacity : ℕ) : Bool × ZoneManager :=
  match zm.get_zone name with
  | some _ => (false, zm)
  | none => (true, ⟨zm.zones ++ [(name, ⟨name, position, capacity, 0⟩)]⟩)

/-- In-place mutation of the named zone, as Python method calls on the object
returned by get_zone mutate the entry held by the manager. -/
def ZoneManager.update_zone (zm : ZoneManager) (name : String) (f : Zone → Zone) :
    ZoneManager :=
  ⟨zm.zones.map (fun p => if p.1 = name then (p.1, f p.2) else p)⟩

/-! ### Sorting strategy.  Modelled from the spec: src/sorting/strategy.py is
imported by logic.py and main.py but is not present under src/; the
class-based variant follows spec section 4.4. -/

/-- Modelled from the spec: the class-based strategy holds a direct
class-to-zone-name lookup table and a designated default zone
(spec section 4.4); main.py builds it from CLASS_ZONE_MAPPING. -/
structure ClassBasedStrategy where
  mapping : List (String × String)
  default_zone : String
deriving Repr, DecidableEq

/-- Modelled from the spec: determine_zone is a total function; an object
whose class has no entry in the table resolves to the default zone
(spec section 4.4). -/
def ClassBasedStrategy.determine_zone (st : ClassBasedStrategy)
    (obj : DetectedObject) : String :=
  ((st.mapping.find? (fun p => p.1 = obj.class_name)).map Prod.snd).getD
    st.default_zone

/-! ### Robot actions and environment oracles.

The commands sort_object issues to the physical robot.  Whether a command
succeeds depends on external hardware; each fallible sub-operation is an
oracle indexed by the object of the current attempt. -/

/-- A command issued to the robot during a sort attempt. -/
inductive RobotAct
  | moveForward
  | moveToPosition (x y : ℚ)
  | gripperOpen
  | gripperGrab
  | gripperRelease
deriving Repr, DecidableEq

/-- Outcomes of the fallible robot sub-operations during one sort attempt,
indexed by the object being sorted. -/
structure Env where
  navigate_ok : DetectedObject → Bool
  open_ok : DetectedObject → Bool
  grab_ok : DetectedObject → Bool
  transport_ok : DetectedObject → Bool
  release_ok : DetectedObject → Bool

/-! ### SortingController: src/src/sorting/logic.py -/

/-- State of SortingController (logic.py, constructor lines 20-31): the
strategy, the zone manager and the sorted-objects counter. -/
structure SortingController where
  strategy : Option ClassBasedStrategy
  zone_manager : ZoneManager
  sorted_objects_count : ℕ
deriving Repr, DecidableEq

/-- Result of one sort attempt: the returned boolean, the updated controller
state and the list of robot commands issued during the attempt. -/
structure SortResult where
  ok : Bool
  ctrl : SortingController
  acts : List RobotAct
deriving Repr, DecidableEq

/-- navigate_to_object (logic.py lines 142-178): reads the object center and
issues one move_forward command; the attempt succeeds iff the movement
does. -/
def navigate_to_object (env : Env) (obj : DetectedObject) : Bool × List RobotAct :=
  (env.navigate_ok obj, [RobotAct.moveForward])

/-- pick_up_object (logic.py lines 180-212): issue gripper open; on failure
return False; otherwise wait, issue grab; on failure return False; otherwise
succeed.  No further gripper command is issued on either failure path. -/
def pick_up_object (env : Env) (obj : DetectedObject) : Bool × List RobotAct :=
  if !(env.open_ok obj) then
    (false, [RobotAct.gripperOpen])
  else if !(env.grab_ok obj) then
    (false, [RobotAct.gripperOpen, RobotAct.gripperGrab])
  else
    (true, [RobotAct.gripperOpen, RobotAct.gripperGrab])

/-- place_object_in_zone (logic.py lines 214-245): issue gripper release; on
failure return False; on success fetch the zone and, when present, call its
add_object (return value ignored), then return True. -/
def place_object_in_zone (relOk : Bool) (zm : ZoneManager) (zone_name : String) :
    Bool × ZoneManager × List RobotAct :=
  if relOk then
    match zm.get_zone zone_name with
    | some _ =>
        (true, zm.update_zone zone_name (fun z => (Zone.add_object z).2),
          [RobotAct.gripperRelease])
    | none => (true, zm, [RobotAct.gripperRelease])
  else
    (false, zm, [RobotAct.gripperRelease])

/-- sort_object (logic.py lines 43-99), generic in the pickup step so that
both the oracle pickup and the shipped-gripper pickup instantiate it:
resolve the zone via the strategy, then navigate, pick up, transport to the
zone position, place, and increment the sorted-objects counter on full
success.  Each guard failure returns False with the state reached so far. -/
def sort_object_with (pickup : Bool × List RobotAct) (env : Env)
    (c : SortingController) (obj : DetectedObject) : SortResult :=
  match c.strategy with
  | none => ⟨false, c, []⟩
  | some st =>
    let zone_name := st.determine_zone obj
    match c.zone_manager.get_zone zone_name with
    | none => ⟨false, c, []⟩
    | some zone =>
      let (navOk, navActs) := navigate_to_object env obj
      if !navOk then ⟨false, c, navActs⟩
      else
        let (pOk, pActs) := pickup
        if !pOk then ⟨false, c, navActs ++ pActs⟩
        else
          let tAct := RobotAct.moveToPosition zone.position.1 zone.position.2
          if !(env.transport_ok obj) then
            ⟨false, c, navActs ++ pActs ++ [tAct]⟩
          else
            let (plOk, zm2, plActs) :=
              place_object_in_zone (env.release_ok obj) c.zone_manager zone_name
            if !plOk then ⟨false, c, navActs ++ pActs ++ [tAct] ++ plActs⟩
            else
              ⟨true,
                { c with zone_manager := zm2,
                         sorted_objects_count := c.sorted_objects_count + 1 },
                navActs ++ pActs ++ [tAct] ++ plActs⟩

/-- sort_object with the oracle pickup step. -/
def sort_object (env : Env) (c : SortingController) (obj : DetectedObject) :
    SortResult :=
  sort_object_with (pick_up_object env obj) env c obj

/-- sort_objects_batch (logic.py lines 101-119): apply sort_object to each
object in order, counting successes, never stopping on a failure. -/
def sort_objects_batch (env : Env) (c : SortingController) :
    List DetectedObject → ℕ × SortingController
  | [] => (0, c)
  | obj :: rest =>
    let r := sort_object env c obj
    let (n, c2) := sort_objects_batch env r.ctrl rest
    (if r.ok then n + 1 else n, c2)

/-- The sequence of per-object outcomes of a batch run, in processing
order. -/
def batch_outcomes (env : Env) (c : SortingController) :
    List DetectedObject → List Bool
  | [] => []
  | obj :: rest =>
    let r := sort_object env c obj
    r.ok :: batch_outcomes env r.ctrl rest

/-- Statistics snapshot returned by get_sorting_statistics
(logic.py lines 121-133). -/
structure SortingStats where
  total_sorted : ℕ
  strategy : Option String
  zones : ℕ
deriving Repr, DecidableEq

/-- get_sorting_statistics (logic.py lines 121-133). -/
def get_sorting_statistics (c : SortingController) : SortingStats :=
  ⟨c.sorted_objects_count,
    c.strategy.map (fun _ => "ClassBasedStrategy"),
    c.zone_manager.zones.length⟩

/-- reset_statistics (logic.py lines 135-140). -/
def reset_statistics (c : SortingController) : SortingController :=
  { c with sorted_objects_count := 0 }

/-! ### Configuration: src/config/settings.py -/

/-- OBJECT_CLASSES (settings.py lines 31-34): the two shipped object
classes. -/
def OBJECT_CLASSES : List String := ["bottle", "cup"]

/-- DETECTION_CONFIDENCE_THRESHOLD (settings.py line 25). -/
def DETECTION_CONFIDENCE_THRESHOLD : ℚ := 1/2

/-- MOVEMENT_SPEED (settings.py line 69). -/
def MOVEMENT_SPEED : ℚ := 1/2

/-- ROTATION_SPEED (settings.py line 70). -/
def ROTATION_SPEED : ℚ := 1/2

/-- MAX_DISAPPEARED_FRAMES (settings.py line 47). -/
def MAX_DISAPPEARED_FRAMES : ℕ := 10

/-- SORTING_ZONES (settings.py lines 56-60): name, position, capacity. -/
def SORTING_ZONES : List (String × (ℚ × ℚ) × ℕ) :=
  [("zone_a", ((1 : ℚ), (1/2 : ℚ)), 10),
   ("zone_b", ((1 : ℚ), (3/2 : ℚ)), 10),
   ("zone_default", ((1/2 : ℚ), (3/2 : ℚ)), 20)]

/-- CLASS_ZONE_MAPPING (settings.py lines 63-66). -/
def CLASS_ZONE_MAPPING : List (String × String) :=
  [("bottle", "zone_b"), ("cup", "zone_a")]

/-- validate_settings (settings.py lines 109-130) as a function of the
configuration values it reads: number of configured object classes,
confidence threshold, movement speed, rotation speed.  A raised ValueError
is an error result; otherwise the function returns True. -/
def validate_settings (numClasses : ℕ) (conf mov rot : ℚ) : Except String Bool :=
  if numClasses < 3 then
    Except.error "Project requires at least 3 object classes"
  else if !(0 ≤ conf && conf ≤ 1) then
    Except.error "Detection confidence threshold must be between 0.0 and 1.0"
  else if !(0 ≤ mov && mov ≤ 1) then
    Except.error "Movement speed must be between 0.0 and 1.0"
  else if !(0 ≤ rot && rot ≤ 1) then
    Except.error "Rotation speed must be between 0.0 and 1.0"
  else
    Except.ok true

/-- The controller main.py builds in initialize_sorting: a ClassBasedStrategy
over CLASS_ZONE_MAPPING and one zone per SORTING_ZONES entry.  The default
zone is the configured zone_default entry (spec sections 4.4 and 8). -/
def initial_controller : SortingController :=
  { strategy := some ⟨CLASS_ZONE_MAPPING, "zone_default"⟩
    zone_manager :=
      SORTING_ZONES.foldl
        (fun zm e => (zm.create_zone e.1 e.2.1 e.2.2).2) ⟨[]⟩
    sorted_objects_count := 0 }

/-! ### The shipped gripper: src/src/robot_control/gripper.py, and the
keyword-argument convention of the calls in logic.py.

RobotGripper.open, grab_object and release_object take no parameter besides
self (gripper.py lines 26, 48, 59) and their stub bodies return False;
logic.py calls them with a power keyword argument.  A Python call whose
keyword arguments do not all bind to parameters raises TypeError before the
method body runs. -/

/-- Result of a Python method call: a normal return or a raised exception. -/
inductive PyCall (α : Type)
  | ok (a : α)
  | raised
deriving Repr, DecidableEq

/-- Python keyword-argument binding: the call returns the body result when
every keyword argument names a declared parameter, and raises TypeError
otherwise (the body never runs in that case). -/
def callWithKwargs {α : Type} (params : List String) (kwargs : List String)
    (body : α) : PyCall α :=
  if kwargs.all (fun k => params.contains k) then PyCall.ok body
  else PyCall.raised

/-- Declared keyword parameters of RobotGripper.open (gripper.py line 26):
none besides self. -/
def RobotGripper.open_params : List String := []

/-- Declared keyword parameters of RobotGripper.grab_object (gripper.py
line 48): none besides self. -/
def RobotGripper.grab_object_params : List String := []

/-- Body result of RobotGripper.open (gripper.py lines 26-35): the stub
returns False. -/
def RobotGripper.open_body : Bool := false

/-- Body result of RobotGripper.grab_object (gripper.py lines 48-57): the
stub returns False. -/
def RobotGripper.grab_object_body : Bool := false

/-- pick_up_object as executed against the shipped RobotGripper
(logic.py lines 180-212): the call gripper.open with the power keyword is
evaluated under Python call semantics; a raised exception is caught by the
surrounding handler, which returns False.  A call that raises issues no
gripper command. -/
def pick_up_object_shipped : Bool × List RobotAct :=
  match callWithKwargs RobotGripper.open_params ["power"] RobotGripper.open_body with
  | PyCall.raised => (false, [])
  | PyCall.ok false => (false, [RobotAct.gripperOpen])
  | PyCall.ok true =>
    match callWithKwargs RobotGripper.grab_object_params ["power"]
        RobotGripper.grab_object_body with
    | PyCall.raised => (false, [RobotAct.gripperOpen])
    | PyCall.ok b => (b, [RobotAct.gripperOpen, RobotAct.gripperGrab])

/-- sort_object as executed against the shipped RobotGripper. -/
def sort_object_shipped (env : Env) (c : SortingController)
    (obj : DetectedObject) : SortResult :=
  sort_object_with pick_up_object_shipped env c obj

/-- sort_objects_batch as executed against the shipped RobotGripper. -/
def sort_objects_batch_shipped (env : Env) (c : SortingController) :
    List DetectedObject → ℕ × SortingController
  | [] => (0, c)
  | obj :: rest =>
    let r := sort_object_shipped env c obj
    let (n, c2) := sort_objects_batch_shipped env r.ctrl rest
    (if r.ok then n + 1 else n, c2)

/-! ### Object tracker.  Modelled from the spec: ObjectTracker is imported
from src.vision by main.py but no tracker file is present under src/; the
registry update follows spec section 4.2 (greedy nearest-centroid matching
in ascending track_id order, disappearance aging with eviction past
max_disappeared, registration of unmatched detections under a monotonically
increasing id counter). -/

/-- Modelled from the spec: a Tracked Object carries a stable integer
identity, the class name, the current bounding box, its centroid and the
consecutive-miss count (spec section 3).  Centroids are stored in doubled
pixel coordinates (x1 + x2, y1 + y2) so they stay integral. -/
structure TrackedObject where
  track_id : ℕ
  class_name : String
  x1 : ℤ
  y1 : ℤ
  x2 : ℤ
  y2 : ℤ
  centroid : ℤ × ℤ
  disappeared_count : ℕ
deriving Repr, DecidableEq

/-- Centroid of a detection bounding box in doubled coordinates. -/
def detCentroid (d : DetectedObject) : ℤ × ℤ := (d.x1 + d.x2, d.y1 + d.y2)

/-- Squared Euclidean distance between two (doubled) centroids. -/
def sqDist (a b : ℤ × ℤ) : ℤ := (a.1 - b.1) ^ 2 + (a.2 - b.2) ^ 2

/-- Modelled from the spec: tracker state is the registry of tracked objects
(kept in ascending track_id order), the next fresh id, and the
max_disappeared threshold (spec section 4.2). -/
structure TrackerState where
  objects : List TrackedObject
  nextId : ℕ
  maxDisappeared : ℕ
deriving Repr, DecidableEq

/-- Modelled from the spec: select from the remaining detections the one
nearest to the given centroid (earliest detection on a distance tie),
returning it with the rest in original order. -/
def pickNearest (c : ℤ × ℤ) :
    List DetectedObject → Option (DetectedObject × List DetectedObject)
  | [] => none
  | d :: ds =>
    match pickNearest c ds with
    | none => some (d, ds)
    | some (best, rest) =>
      if sqDist c (detCentroid d) ≤ sqDist c (detCentroid best) then
        some (d, ds)
      else
        some (best, d :: rest)

/-- Modelled from the spec: the tracked object refreshed by its matched
detection — bounding box and centroid updated, disappeared count reset to
zero (spec section 4.2). -/
def refresh (o : TrackedObject) (d : DetectedObject) : TrackedObject :=
  { o with x1 := d.x1, y1 := d.y1, x2 := d.x2, y2 := d.y2,
           centroid := detCentroid d, disappeared_count := 0 }

/-- Modelled from the spec: process existing tracked objects in registry
(ascending track_id) order; each takes the nearest remaining detection when
one is left, otherwise ages by one disappearance tick and is evicted when
the count exceeds max_disappeared; returns the surviving registry and the
unmatched detections (spec section 4.2). -/
def matchObjects (maxDis : ℕ) :
    List TrackedObject → List DetectedObject →
      List TrackedObject × List DetectedObject
  | [], ds => ([], ds)
  | o :: os, ds =>
    match pickNearest o.centroid ds with
    | some (d, rest) =>
        let (ros, rds) := matchObjects maxDis os rest
        (refresh o d :: ros, rds)
    | none =>
        let (ros, rds) := matchObjects maxDis os ds
        if o.disappeared_count + 1 > maxDis then (ros, rds)
        else ({ o with disappeared_count := o.disappeared_count + 1 } :: ros, rds)

/-- Modelled from the spec: register an unmatched detection as a new Tracked
Object under the given fresh id (spec section 4.2). -/
def registerDet (nid : ℕ) (d : DetectedObject) : TrackedObject :=
  ⟨nid, d.class_name, d.x1, d.y1, d.x2, d.y2, detCentroid d, 0⟩

/-- Modelled from the spec: register every unmatched detection in order,
allocating consecutive fresh ids (spec section 4.2). -/
def registerAll : List TrackedObject × ℕ → List DetectedObject →
    List TrackedObject × ℕ
  | acc, [] => acc
  | (objs, nid), d :: ds => registerAll (objs ++ [registerDet nid d], nid + 1) ds

/-- Modelled from the spec: one tracker update cycle — match, age or evict,
then register the leftover detections (spec section 4.2). -/
def trackerUpdate (s : TrackerState) (ds : List DetectedObject) : TrackerState :=
  let (objs2, remaining) := matchObjects s.maxDisappeared s.objects ds
  let (objs3, nid2) := registerAll (objs2, s.nextId) remaining
  { s with objects := objs3, nextId := nid2 }

/-- n tracker cycles with an empty detection list each. -/
def emptyCycles (s : TrackerState) : ℕ → TrackerState
  | 0 => s
  | n + 1 => emptyCycles (trackerUpdate s []) n

/-- One disappearance tick on a tracked object. -/
def ageObj (o : TrackedObject) : TrackedObject :=
  { o with disappeared_count := o.disappeared_count + 1 }

/-! ### Concrete inputs used by witnesses and counterexamples -/

/-- An environment in which every robot sub-operation succeeds. -/
def envAllOk : Env :=
  ⟨fun _ => true, fun _ => true, fun _ => true, fun _ => true, fun _ => true⟩

/-- An environment in which the gripper grab fails and everything else
succeeds. -/
def envGrabFail : Env :=
  ⟨fun _ => true, fun _ => true, fun _ => false, fun _ => true, fun _ => true⟩

/-- A concrete detected cup. -/
def wCup : DetectedObject := ⟨"cup", 9/10, 10, 10, 50, 50⟩

/-- A concrete detected spoon, a class with no entry in the class-to-zone
mapping. -/
def wSpoon : DetectedObject := ⟨"spoon", 7/10, 20, 20, 40, 40⟩

/-- A controller whose strategy resolves to a zone name the zone manager does
not know. -/
def wCtrlNoZone : SortingController :=
  ⟨some ⟨[], "zone_missing"⟩, ⟨[]⟩, 0⟩

/-- A controller with a single zone already at capacity. -/
def wCtrlFull : SortingController :=
  ⟨some ⟨[("cup", "zone_a")], "zone_a"⟩,
    ⟨[("zone_a", ⟨"zone_a", ((1 : ℚ), (1/2 : ℚ)), 1, 1⟩)]⟩, 5⟩

/-- A concrete tracked bottle with a fresh disappearance count. -/
def wTracked : TrackedObject := ⟨0, "bottle", 10, 10, 50, 50, (60, 60), 0⟩

/-- A concrete bottle detection at the tracked position. -/
def wDet : DetectedObject := ⟨"bottle", 8/10, 10, 10, 50, 50⟩

/-! ### Theorems -/

/-- Claim C7: validate_settings raises a ValueError if and only if fewer than
3 object classes are configured, or the detection confidence threshold lies
outside the interval from 0 to 1, or the movement speed lies outside that
interval, or the rotation speed lies outside that interval; in all other
cases it returns True. -/
theorem validate_settings_error_iff (n : ℕ) (conf mov rot : ℚ) :
    ((∃ e, validate_settings n conf mov rot = Except.error e) ↔
      (n < 3 ∨ conf < 0 ∨ 1 < conf ∨ mov < 0 ∨ 1 < mov ∨ rot < 0 ∨ 1 < rot)) ∧
    (¬(n < 3 ∨ conf < 0 ∨ 1 < conf ∨ mov < 0 ∨ 1 < mov ∨ rot < 0 ∨ 1 < rot) →
      validate_settings n conf mov rot = Except.ok true) := by
  unfold validate_settings
  split_ifs with h1 h2 h3 h4 <;>
    simp_all [not_and_or, not_le, not_lt] <;>
    casesm* _ ∨ _ <;>
    first
      | tauto
      | (refine ⟨by tauto, ?_⟩ <;> intros <;> linarith)

/-- Claim C9: under the shipped configuration, in which OBJECT_CLASSES has
exactly 2 entries, validate_settings always raises the ValueError about
requiring at least 3 object classes, so configuration validation can never
succeed without editing the defaults. -/
theorem shipped_config_validation_always_fails :
    OBJECT_CLASSES.length = 2 ∧
    validate_settings OBJECT_CLASSES.length DETECTION_CONFIDENCE_THRESHOLD
        MOVEMENT_SPEED ROTATION_SPEED
      = Except.error "Project requires at least 3 object classes" :=
  ⟨rfl, rfl⟩

/-- With the shipped gripper the pickup step fails, leaves the controller
unchanged and issues at most the navigation movement. -/
lemma sort_object_shipped_spec (env : Env) (c : SortingController)
    (obj : DetectedObject) :
    (sort_object_shipped env c obj).ok = false ∧
    (sort_object_shipped env c obj).ctrl = c ∧
    ((sort_object_shipped env c obj).acts = [] ∨
      (sort_object_shipped env c obj).acts = [RobotAct.moveForward]) := by
  rcases c with ⟨st, zm, k⟩
  cases st with
  | none => simp [sort_object_shipped, sort_object_with]
  | some st =>
    cases hz : zm.get_zone (st.determine_zone obj) with
    | none => simp [sort_object_shipped, sort_object_with, hz]
    | some z =>
      cases hn : env.navigate_ok obj <;>
        simp [sort_object_shipped, sort_object_with, hz, hn, navigate_to_object,
          pick_up_object_shipped, callWithKwargs, RobotGripper.open_params]

/-- Claim C8: with the repository RobotGripper, pick_up_object fails on every
call — the call passes a power keyword argument that RobotGripper.open does
not declare, so the call raises TypeError before any gripper command and the
surrounding handler reports failure — hence sort_object never reaches the
transport or placing phases, never returns True, and the sorted-objects
counter stays at its initial value on every batch. -/
theorem shipped_gripper_never_sorts :
    callWithKwargs RobotGripper.open_params ["power"] RobotGripper.open_body
      = PyCall.raised ∧
    pick_up_object_shipped = (false, []) ∧
    (∀ (env : Env) (c : SortingController) (obj : DetectedObject),
      (sort_object_shipped env c obj).ok = false ∧
      (sort_object_shipped env c obj).ctrl = c ∧
      (∀ x y, RobotAct.moveToPosition x y ∉ (sort_object_shipped env c obj).acts) ∧
      RobotAct.gripperRelease ∉ (sort_object_shipped env c obj).acts) ∧
    (∀ (env : Env) (c : SortingController) (objs : List DetectedObject),
      sort_objects_batch_shipped env c objs = (0, c)) := by
  refine ⟨rfl, rfl, ?_, ?_⟩
  · intro env c obj
    obtain ⟨hok, hctrl, hacts⟩ := sort_object_shipped_spec env c obj
    refine ⟨hok, hctrl, ?_, ?_⟩ <;> rcases hacts with h | h <;> simp [h]
  · intro env c objs
    induction objs generalizing c with
    | nil => rfl
    | cons obj rest ih =>
      obtain ⟨hok, hctrl, -⟩ := sort_object_shipped_spec env c obj
      simp [sort_objects_batch_shipped, hok, hctrl, ih]

/-- Claim C4: when the zone name produced by the strategy does not resolve to
an existing zone, sort_object fails the attempt without issuing any movement
or gripper command and without changing the controller state (so no zone
occupancy and no sorted-objects counter change). -/
theorem sort_object_zone_not_found (env : Env) (c : SortingController)
    (st : ClassBasedStrategy) (obj : DetectedObject)
    (hst : c.strategy = some st)
    (hz : c.zone_manager.get_zone (st.determine_zone obj) = none) :
    sort_object env c obj = ⟨false, c, []⟩ := by
  simp [sort_object, sort_object_with, hst, hz]

/-- Witness for claim C4 at a concrete controller whose strategy resolves to
an unknown zone name. -/
theorem sort_object_zone_not_found_witness :
    wCtrlNoZone.strategy = some ⟨[], "zone_missing"⟩ ∧
    wCtrlNoZone.zone_manager.get_zone
        (ClassBasedStrategy.determine_zone ⟨[], "zone_missing"⟩ wCup) = none ∧
    sort_object envAllOk wCtrlNoZone wCup = ⟨false, wCtrlNoZone, []⟩ :=
  ⟨rfl, rfl, sort_object_zone_not_found envAllOk wCtrlNoZone ⟨[], "zone_missing"⟩
    wCup rfl rfl⟩

/-- Counterexample for claim C2: the claim, read on pick_up_object, says that
whenever a pickup sub-step fails a corrective gripper-open command is issued
after the failing sub-step, so the command trace of a failed pickup ends in
a gripper open that is not the lone initial one.  With an environment where
the grab fails after a successful open, the trace ends in the grab command
instead. -/
theorem pickup_recovery_counterexample :
    ¬ (∀ (env : Env) (obj : DetectedObject),
        (pick_up_object env obj).1 = false →
        (pick_up_object env obj).2.getLast? = some RobotAct.gripperOpen ∧
        2 ≤ (pick_up_object env obj).2.length) := by
  intro h
  have hfail : (pick_up_object envGrabFail wCup).1 = false := rfl
  have hlast := (h envGrabFail wCup hfail).1
  have : (pick_up_object envGrabFail wCup).2.getLast?
      = some RobotAct.gripperGrab := rfl
  simp [this] at hlast

/-- Claim C2 amended: whenever a pickup sub-step fails, pick_up_object
reports the failure immediately without any gripper-open recovery action —
the trace holds exactly the one initial open command, ending at the failing
sub-step. -/
theorem pickup_fails_without_recovery (env : Env) (obj : DetectedObject)
    (h : (pick_up_object env obj).1 = false) :
    (pick_up_object env obj).2.count RobotAct.gripperOpen = 1 ∧
    ((pick_up_object env obj).2 = [RobotAct.gripperOpen] ∨
      (pick_up_object env obj).2 = [RobotAct.gripperOpen, RobotAct.gripperGrab]) := by
  cases ho : env.open_ok obj <;> cases hg : env.grab_ok obj <;>
    simp_all [pick_up_object]

/-- Witness for the amended claim C2 at the environment where the grab
fails. -/
theorem pickup_fails_without_recovery_witness :
    (pick_up_object envGrabFail wCup).1 = false ∧
    (pick_up_object envGrabFail wCup).2.count RobotAct.gripperOpen = 1 ∧
    ((pick_up_object envGrabFail wCup).2 = [RobotAct.gripperOpen] ∨
      (pick_up_object envGrabFail wCup).2
        = [RobotAct.gripperOpen, RobotAct.gripperGrab]) :=
  ⟨rfl, pickup_fails_without_recovery envGrabFail wCup rfl⟩

/-- Claim C5: determine_zone is total — whenever every zone name in the
class-to-zone table and the default zone name resolve in the zone manager,
the name determined for any object resolves as well, and an object whose
class has no table entry falls back to the default zone. -/
theorem determine_zone_total (st : ClassBasedStrategy) (zm : ZoneManager)
    (obj : DetectedObject)
    (hmap : ∀ p ∈ st.mapping, (zm.get_zone p.2).isSome)
    (hdef : (zm.get_zone st.default_zone).isSome) :
    (zm.get_zone (st.determine_zone obj)).isSome ∧
    (st.mapping.find? (fun p => p.1 = obj.class_name) = none →
      st.determine_zone obj = st.default_zone) := by
  unfold ClassBasedStrategy.determine_zone
  cases hf : st.mapping.find? (fun p => p.1 = obj.class_name) with
  | none => simpa using hdef
  | some p =>
    have hmem : p ∈ st.mapping := List.mem_of_find?_eq_some hf
    exact ⟨by simpa using hmap p hmem, by simp⟩

/-- Witness for claim C5: with the shipped configuration an unmapped spoon
resolves to the existing default zone. -/
theorem determine_zone_total_witness :
    (∀ p ∈ CLASS_ZONE_MAPPING,
      (initial_controller.zone_manager.get_zone p.2).isSome) ∧
    (initial_controller.zone_manager.get_zone "zone_default").isSome ∧
    (initial_controller.zone_manager.get_zone
      (ClassBasedStrategy.determine_zone ⟨CLASS_ZONE_MAPPING, "zone_default"⟩
        wSpoon)).isSome ∧
    ClassBasedStrategy.determine_zone ⟨CLASS_ZONE_MAPPING, "zone_default"⟩ wSpoon
      = "zone_default" := by
  have h := determine_zone_total ⟨CLASS_ZONE_MAPPING, "zone_default"⟩
    initial_controller.zone_manager wSpoon (by decide) (by decide)
  exact ⟨by decide, by decide, h.1, h.2 (by decide)⟩

/-- Looking up the updated name after update_zone returns the mapped zone. -/
lemma get_zone_update_zone (zm : ZoneManager) (name : String) (f : Zone → Zone) :
    (zm.update_zone name f).get_zone name = (zm.get_zone name).map f := by
  rcases zm with ⟨zs⟩
  induction zs with
  | nil => rfl
  | cons p rest ih =>
    by_cases hp : p.1 = name <;>
      simp [ZoneManager.update_zone, ZoneManager.get_zone, List.find?_cons, hp] <;>
      simpa [ZoneManager.update_zone, ZoneManager.get_zone] using ih

/-- Claim C3: when the gripper release succeeds but the target zone is
already at capacity, the sort attempt is still reported successful — the
capacity failure is only flagged by add_object — the zone occupancy stays as
it was, and no command follows the release, so the completed physical
placement is not undone. -/
theorem place_success_despite_capacity (env : Env) (c : SortingController)
    (st : ClassBasedStrategy) (obj : DetectedObject) (z : Zone)
    (hst : c.strategy = some st)
    (hz : c.zone_manager.get_zone (st.determine_zone obj) = some z)
    (hcap : z.occupied_count = z.capacity)
    (hnav : env.navigate_ok obj = true)
    (hopen : env.open_ok obj = true)
    (hgrab : env.grab_ok obj = true)
    (htr : env.transport_ok obj = true)
    (hrel : env.release_ok obj = true) :
    (sort_object env c obj).ok = true ∧
    (Zone.add_object z).1 = false ∧
    (sort_object env c obj).ctrl.zone_manager.get_zone (st.determine_zone obj)
      = some z ∧
    (sort_object env c obj).ctrl.sorted_objects_count
      = c.sorted_objects_count + 1 ∧
    (sort_object env c obj).acts.getLast? = some RobotAct.gripperRelease := by
  have haddsnd : (Zone.add_object z).2 = z := by
    simp [Zone.add_object, hcap]
  have haddfst : (Zone.add_object z).1 = false := by
    simp [Zone.add_object, hcap]
  have hupd : (c.zone_manager.update_zone (st.determine_zone obj)
      (fun w => (Zone.add_object w).2)).get_zone (st.determine_zone obj)
      = some z := by
    simp [get_zone_update_zone, hz, haddsnd]
  refine ⟨?_, haddfst, ?_, ?_, ?_⟩ <;>
    simp [sort_object, sort_object_with, hst, hz, navigate_to_object, hnav,
      pick_up_object, hopen, hgrab, htr, place_object_in_zone, hrel, hupd]

/-- Witness for claim C3 at a concrete controller whose only zone is full. -/
theorem place_success_despite_capacity_witness :
    wCtrlFull.strategy = some ⟨[("cup", "zone_a")], "zone_a"⟩ ∧
    wCtrlFull.zone_manager.get_zone
        (ClassBasedStrategy.determine_zone ⟨[("cup", "zone_a")], "zone_a"⟩ wCup)
      = some ⟨"zone_a", ((1 : ℚ), (1/2 : ℚ)), 1, 1⟩ ∧
    (sort_object envAllOk wCtrlFull wCup).ok = true ∧
    (Zone.add_object ⟨"zone_a", ((1 : ℚ), (1/2 : ℚ)), 1, 1⟩).1 = false ∧
    (sort_object envAllOk wCtrlFull wCup).ctrl.zone_manager.get_zone
        (ClassBasedStrategy.determine_zone ⟨[("cup", "zone_a")], "zone_a"⟩ wCup)
      = some ⟨"zone_a", ((1 : ℚ), (1/2 : ℚ)), 1, 1⟩ ∧
    (sort_object envAllOk wCtrlFull wCup).ctrl.sorted_objects_count
      = wCtrlFull.sorted_objects_count + 1 ∧
    (sort_object envAllOk wCtrlFull wCup).acts.getLast?
      = some RobotAct.gripperRelease := by
  have h := place_success_despite_capacity envAllOk wCtrlFull
    ⟨[("cup", "zone_a")], "zone_a"⟩ wCup ⟨"zone_a", ((1 : ℚ), (1/2 : ℚ)), 1, 1⟩
    rfl rfl rfl rfl rfl rfl rfl rfl
  exact ⟨rfl, rfl, h.1, h.2.1, h.2.2.1, h.2.2.2.1, h.2.2.2.2⟩

/-- One sort attempt increments the sorted-objects counter exactly when it
succeeds. -/
lemma sort_object_count_step (env : Env) (c : SortingController)
    (obj : DetectedObject) :
    (sort_object env c obj).ctrl.sorted_objects_count
      = c.sorted_objects_count + (if (sort_object env c obj).ok then 1 else 0) := by
  rcases c with ⟨st, zm, k⟩
  cases st with
  | none => simp [sort_object, sort_object_with]
  | some st =>
    cases hz : zm.get_zone (st.determine_zone obj) with
    | none => simp [sort_object, sort_object_with, hz]
    | some z =>
      cases hn : env.navigate_ok obj with
      | false => simp [sort_object, sort_object_with, hz, hn, navigate_to_object]
      | true =>
        cases ho : env.open_ok obj <;> cases hg : env.grab_ok obj <;>
          cases ht : env.transport_ok obj <;> cases hr : env.release_ok obj <;>
          simp [sort_object, sort_object_with, hz, hn, navigate_to_object,
            pick_up_object, place_object_in_zone, ho, hg, ht, hr]

/-- Batch sorting returns the number of successful outcomes, processes every
object, and advances the counter by exactly that number. -/
lemma batch_spec (env : Env) (objs : List DetectedObject) :
    ∀ c : SortingController,
    (sort_objects_batch env c objs).1 = (batch_outcomes env c objs).count true ∧
    (batch_outcomes env c objs).length = objs.length ∧
    (sort_objects_batch env c objs).2.sorted_objects_count
      = c.sorted_objects_count + (sort_objects_batch env c objs).1 := by
  induction objs with
  | nil => intro c; simp [sort_objects_batch, batch_outcomes]
  | cons obj rest ih =>
    intro c
    obtain ⟨ih1, ih2, ih3⟩ := ih (sort_object env c obj).ctrl
    have hstep := sort_object_count_step env c obj
    cases hok : (sort_object env c obj).ok <;>
      simp [sort_objects_batch, batch_outcomes, hok, ih1, ih2, ih3] <;>
      rw [hstep] <;> simp [hok] <;> omega

/-- On a list of booleans the counts of true and false sum to the length. -/
lemma count_true_add_count_false (l : List Bool) :
    l.count true + l.count false = l.length := by
  induction l with
  | nil => rfl
  | cons b rest ih => cases b <;> simp [List.count_cons] <;> omega

/-- Claim C1: batch sorting processes the objects in order, continues past
failures, and returns exactly the number of successful attempts — N objects
with K failures yield N minus K — while the sorted-objects counter, hence
the total_sorted statistic, advances by exactly the number of successes:
one increment per successful sort_object call, none on a failed one, so
after a reset total_sorted equals the cumulative number of successes. -/
theorem batch_count_correct (env : Env) (c : SortingController)
    (objs : List DetectedObject) :
    (sort_objects_batch env c objs).1 = (batch_outcomes env c objs).count true ∧
    (batch_outcomes env c objs).length = objs.length ∧
    (sort_objects_batch env c objs).1
      = objs.length - (batch_outcomes env c objs).count false ∧
    (sort_objects_batch env c objs).2.sorted_objects_count
      = c.sorted_objects_count + (sort_objects_batch env c objs).1 ∧
    (get_sorting_statistics
        (sort_objects_batch env (reset_statistics c) objs).2).total_sorted
      = (sort_objects_batch env (reset_statistics c) objs).1 ∧
    (∀ obj, (sort_object env c obj).ctrl.sorted_objects_count
      = c.sorted_objects_count + if (sort_object env c obj).ok then 1 else 0) := by
  obtain ⟨h1, h2, h3⟩ := batch_spec env objs c
  obtain ⟨-, -, hr3⟩ := batch_spec env objs (reset_statistics c)
  have hsum := count_true_add_count_false (batch_outcomes env c objs)
  refine ⟨h1, h2, by omega, h3, ?_, fun obj => sort_object_count_step env c obj⟩
  simpa [get_sorting_statistics, reset_statistics] using hr3

/-- With no detections, matching ages every tracked object and evicts those
past the threshold. -/
lemma matchObjects_nil (m : ℕ) (os : List TrackedObject) :
    matchObjects m os []
      = ((os.map ageObj).filter (fun o => o.disappeared_count ≤ m), []) := by
  induction os with
  | nil => rfl
  | cons o rest ih =>
    by_cases h : o.disappeared_count + 1 ≤ m
    · have h2 : ¬ (o.disappeared_count + 1 > m) := by omega
      simp [matchObjects, pickNearest, ih, ageObj, h, h2]
    · have h2 : o.disappeared_count + 1 > m := by omega
      simp [matchObjects, pickNearest, ih, ageObj, h, h2]

/-- A tracker cycle with no detections ages the whole registry and evicts
exactly the objects whose count passes the threshold. -/
lemma trackerUpdate_nil (s : TrackerState) :
    trackerUpdate s []
      = { s with objects := ((s.objects.map ageObj).filter
            (fun o => o.disappeared_count ≤ s.maxDisappeared)) } := by
  simp [trackerUpdate, matchObjects_nil, registerAll]

/-- Empty cycles compose. -/
lemma emptyCycles_add (a : ℕ) :
    ∀ (s : TrackerState) (b : ℕ),
      emptyCycles s (a + b) = emptyCycles (emptyCycles s a) b := by
  induction a with
  | zero => intro s b; rw [Nat.zero_add]; rfl
  | succ a ih =>
    intro s b
    have harith : a + 1 + b = (a + b) + 1 := by omega
    rw [harith]
    show emptyCycles (trackerUpdate s []) (a + b)
      = emptyCycles (emptyCycles (trackerUpdate s []) a) b
    exact ih (trackerUpdate s []) b

/-- A single tracked object survives n missed cycles within the threshold,
accumulating exactly n disappearance ticks. -/
lemma emptyCycles_single (max nid : ℕ) :
    ∀ (n : ℕ) (o : TrackedObject), o.disappeared_count + n ≤ max →
    emptyCycles ⟨[o], nid, max⟩ n
      = ⟨[{ o with disappeared_count := o.disappeared_count + n }], nid, max⟩ := by
  intro n
  induction n with
  | zero => intro o _; simp [emptyCycles]
  | succ n ih =>
    intro o hle
    have hkeep : o.disappeared_count + 1 ≤ max := by omega
    have h1 : trackerUpdate ⟨[o], nid, max⟩ []
        = ⟨[{ o with disappeared_count := o.disappeared_count + 1 }], nid, max⟩ := by
      rw [trackerUpdate_nil]
      simp [ageObj, hkeep]
    show emptyCycles (trackerUpdate ⟨[o], nid, max⟩ []) n = _
    rw [h1]
    have h2 := ih { o with disappeared_count := o.disappeared_count + 1 }
      (by omega : o.disappeared_count + 1 + n ≤ max)
    rw [h2]
    have harith : o.disappeared_count + 1 + n = o.disappeared_count + (n + 1) := by
      omega
    simp [harith]

/-- A tracker cycle on a one-object registry with one detection matches them
and keeps the identity. -/
lemma trackerUpdate_single_det (max nid : ℕ) (o : TrackedObject)
    (d : DetectedObject) :
    trackerUpdate ⟨[o], nid, max⟩ [d] = ⟨[refresh o d], nid, max⟩ := by
  simp [trackerUpdate, matchObjects, pickNearest, registerAll]

/-- Empty cycles leave an empty registry empty. -/
lemma emptyCycles_empty (max nid : ℕ) :
    ∀ n, emptyCycles ⟨[], nid, max⟩ n = ⟨[], nid, max⟩ := by
  intro n
  induction n with
  | zero => rfl
  | succ n ih =>
    show emptyCycles (trackerUpdate ⟨[], nid, max⟩ []) n = _
    rw [trackerUpdate_nil]
    simpa using ih

/-- A fresh object that misses more than max_disappeared consecutive cycles
is evicted. -/
lemma emptyCycles_evict (max nid n : ℕ) (o : TrackedObject)
    (h0 : o.disappeared_count = 0) (hn : max < n) :
    emptyCycles ⟨[o], nid, max⟩ n = ⟨[], nid, max⟩ := by
  obtain ⟨m, rfl⟩ : ∃ m, n = (max + 1) + m := ⟨n - (max + 1), by omega⟩
  rw [emptyCycles_add]
  have hmax : emptyCycles ⟨[o], nid, max⟩ max
      = ⟨[{ o with disappeared_count := max }], nid, max⟩ := by
    have := emptyCycles_single max nid max o (by omega)
    simpa [h0] using this
  have h1 : emptyCycles
      (⟨[{ o with disappeared_count := max }], nid, max⟩ : TrackerState) 1
      = ⟨[], nid, max⟩ := by
    show trackerUpdate
      (⟨[{ o with disappeared_count := max }], nid, max⟩ : TrackerState) [] = _
    rw [trackerUpdate_nil]
    simp [ageObj]
  have hstep : emptyCycles ⟨[o], nid, max⟩ (max + 1) = ⟨[], nid, max⟩ := by
    rw [emptyCycles_add, hmax, h1]
  rw [hstep, emptyCycles_empty]

/-- Matching never invents identities: every surviving registry entry keeps
the track_id of an existing object. -/
lemma matchObjects_ids (m : ℕ) (os : List TrackedObject) :
    ∀ (ds : List DetectedObject), ∀ x ∈ (matchObjects m os ds).1,
      ∃ o ∈ os, x.track_id = o.track_id := by
  induction os with
  | nil => intro ds x hx; simp [matchObjects] at hx
  | cons o rest ih =>
    intro ds x hx
    cases hp : pickNearest o.centroid ds with
    | some pr =>
      rcases pr with ⟨d, rds⟩
      simp only [matchObjects, hp] at hx
      rcases List.mem_cons.1 hx with rfl | hx2
      · exact ⟨o, List.mem_cons_self o rest, rfl⟩
      · obtain ⟨o2, ho2, hid⟩ := ih rds x hx2
        exact ⟨o2, List.mem_cons_of_mem o ho2, hid⟩
    | none =>
      simp only [matchObjects, hp] at hx
      by_cases hev : o.disappeared_count + 1 > m
      · rw [if_pos hev] at hx
        obtain ⟨o2, ho2, hid⟩ := ih ds x hx
        exact ⟨o2, List.mem_cons_of_mem o ho2, hid⟩
      · rw [if_neg hev] at hx
        rcases List.mem_cons.1 hx with rfl | hx2
        · exact ⟨o, List.mem_cons_self o rest, rfl⟩
        · obtain ⟨o2, ho2, hid⟩ := ih ds x hx2
          exact ⟨o2, List.mem_cons_of_mem o ho2, hid⟩

/-- Registration allocates consecutive fresh identities starting at the
current counter and advances the counter by the number of registered
detections. -/
lemma registerAll_spec (ds : List DetectedObject) :
    ∀ (base : List TrackedObject) (nid : ℕ),
      (registerAll (base, nid) ds).2 = nid + ds.length ∧
      ∀ x ∈ (registerAll (base, nid) ds).1,
        x ∈ base ∨ (nid ≤ x.track_id ∧ x.track_id < nid + ds.length) := by
  induction ds with
  | nil =>
    intro base nid
    refine ⟨by simp [registerAll], ?_⟩
    intro x hx
    exact Or.inl (by simpa [registerAll] using hx)
  | cons d rest ih =>
    intro base nid
    obtain ⟨ih1, ih2⟩ := ih (base ++ [registerDet nid d]) (nid + 1)
    constructor
    · show (registerAll (base ++ [registerDet nid d], nid + 1) rest).2 = _
      rw [ih1]
      simp
      omega
    · intro x hx
      have hx2 := ih2 x hx
      rcases hx2 with hb | hr
      · rcases List.mem_append.1 hb with h | h
        · exact Or.inl h
        · right
          have : x = registerDet nid d := by simpa using h
          subst this
          simp [registerDet]
      · right
        simp at hr ⊢
        omega

/-- The tracker never reuses an identity: the id counter is monotone and
every registry id stays below it. -/
lemma trackerUpdate_fresh (s : TrackerState) (ds : List DetectedObject) :
    s.nextId ≤ (trackerUpdate s ds).nextId ∧
    ((∀ x ∈ s.objects, x.track_id < s.nextId) →
      ∀ x ∈ (trackerUpdate s ds).objects,
        x.track_id < (trackerUpdate s ds).nextId) := by
  rcases hmo : matchObjects s.maxDisappeared s.objects ds with ⟨objs2, rem⟩
  obtain ⟨hr1, hr2⟩ := registerAll_spec rem objs2 s.nextId
  have hobj : (trackerUpdate s ds).objects = (registerAll (objs2, s.nextId) rem).1 := by
    simp [trackerUpdate, hmo]
  have hnid : (trackerUpdate s ds).nextId = s.nextId + rem.length := by
    simp [trackerUpdate, hmo, hr1]
  constructor
  · rw [hnid]; omega
  · intro hwf x hx
    rw [hobj] at hx
    rw [hnid]
    rcases hr2 x hx with hb | hfresh
    · have hid := matchObjects_ids s.maxDisappeared s.objects ds x (by rw [hmo]; exact hb)
      obtain ⟨o2, ho2, hide⟩ := hid
      have := hwf o2 ho2
      omega
    · omega

/-- Claim C6: an unmatched tracked object gains one disappearance tick per
cycle and is evicted exactly when the count exceeds max_disappeared; a
detection reappearing within that window keeps its original track_id, a
detection reappearing after eviction receives the fresh next id; and the id
counter is monotone, with every registry id below it, so ids are never
reused. -/
theorem tracker_identity_lifecycle (max nid n : ℕ) (o : TrackedObject)
    (d : DetectedObject) (hdis : o.disappeared_count = 0)
    (hid : o.track_id < nid) :
    (∀ s : TrackerState, trackerUpdate s []
        = { s with objects := ((s.objects.map ageObj).filter
            (fun x => x.disappeared_count ≤ s.maxDisappeared)) }) ∧
    (n ≤ max →
      (trackerUpdate (emptyCycles ⟨[o], nid, max⟩ n) [d]).objects.map
          (fun x => x.track_id) = [o.track_id]) ∧
    (max < n →
      (emptyCycles ⟨[o], nid, max⟩ n).objects = [] ∧
      (trackerUpdate (emptyCycles ⟨[o], nid, max⟩ n) [d]).objects.map
          (fun x => x.track_id) = [nid] ∧
      o.track_id < nid) ∧
    (∀ (s : TrackerState) (ds : List DetectedObject),
      s.nextId ≤ (trackerUpdate s ds).nextId ∧
      ((∀ x ∈ s.objects, x.track_id < s.nextId) →
        ∀ x ∈ (trackerUpdate s ds).objects,
          x.track_id < (trackerUpdate s ds).nextId)) := by
  refine ⟨trackerUpdate_nil, ?_, ?_, trackerUpdate_fresh⟩
  · intro hn
    rw [emptyCycles_single max nid n o (by omega), trackerUpdate_single_det]
    simp [refresh]
  · intro hn
    have hev := emptyCycles_evict max nid n o hdis hn
    rw [hev]
    refine ⟨rfl, ?_, hid⟩
    show (trackerUpdate ⟨[], nid, max⟩ [d]).objects.map (fun x => x.track_id) = [nid]
    simp [trackerUpdate, matchObjects, registerAll, registerDet]

/-- Witness for claim C6: a concrete bottle absent for exactly the
max_disappeared window keeps its id on reappearance. -/
theorem tracker_identity_lifecycle_witness :
    wTracked.disappeared_count = 0 ∧ wTracked.track_id < 1 ∧
    (trackerUpdate
        (emptyCycles ⟨[wTracked], 1, MAX_DISAPPEARED_FRAMES⟩
          MAX_DISAPPEARED_FRAMES) [wDet]).objects.map (fun x => x.track_id)
      = [wTracked.track_id] :=
  ⟨rfl, by decide,
    (tracker_identity_lifecycle MAX_DISAPPEARED_FRAMES 1 MAX_DISAPPEARED_FRAMES
      wTracked wDet rfl (by decide)).2.1 (by decide)⟩

end RoboSort

